import Mathlib

/-!
Shallow embedding of the public-transport discrete-event simulation from
`src/public_transport/src/main.rs`, together with theorems settling the
specification claims about it.

Modelling conventions:
* `Arc<City>` pointer identity is modelled by the `addr` field of `City`;
  each allocation in a scenario gets a distinct `addr`.  The derived Rust
  `PartialEq`/`Hash`/`Ord` on `City` (and hence on `Arc<City>` as a map or
  set key) compare by the `name` field only, so city-keyed collections are
  modelled with name-keyed lookups, while `Arc::ptr_eq` is modelled by
  comparing `addr`.
* `HashSet`/`HashMap` are modelled as association lists in insertion order
  (their Rust iteration order is unspecified; the scenarios used below do
  not depend on it).  `BTreeMap` keyed by `u32` is modelled as an
  association list kept in ascending key order, matching its iteration
  order.
* `u32` values (ticks, counts, ids) are modelled as `Nat`; no scenario or
  claim involves overflow.
* Code paths that unwrap/abort (`current_stop` on an empty route, the
  `get_mut(..).unwrap()` calls) are modelled with `Option`, `none` standing
  for the abort.
-/

namespace PT

structure City where
  addr : Nat
  name : String
deriving DecidableEq, Repr

structure Road where
  travel_time : Nat
  point_a : City
  point_b : City
deriving DecidableEq, Repr

/-- Association-list lookup keyed by city name (the derived `Eq`/`Hash`/`Ord`
on `City` compare the `name` field only). -/
def lookupW {α : Type} : List (City × α) → City → Option α
  | [], _ => none
  | (c', v) :: rest, c => if c'.name = c.name then some v else lookupW rest c

/-- Association-list update-or-insert keyed by city name: apply `f` to the
value at key `c` if present, otherwise append `(c, d)`. -/
def upsertW {α : Type} : List (City × α) → City → (α → α) → α → List (City × α)
  | [], c, _, d => [(c, d)]
  | (c', v) :: rest, c, f, d =>
    if c'.name = c.name then (c', f v) :: rest else (c', v) :: upsertW rest c f d

/-- Association-list lookup keyed by `Nat` (models `BTreeMap<u32, _>::get`). -/
def lookupA {α : Type} : List (Nat × α) → Nat → Option α
  | [], _ => none
  | (k', v) :: rest, k => if k = k' then some v else lookupA rest k

/-- Association-list update-or-insert keyed by `Nat`, keeping ascending key
order (models `BTreeMap<u32, _>::entry` followed by a mutation `f` of the
existing value, or insertion of the default `d`). -/
def upsertA {α : Type} : List (Nat × α) → Nat → (α → α) → α → List (Nat × α)
  | [], k, _, d => [(k, d)]
  | (k', v) :: rest, k, f, d =>
    if k = k' then (k', f v) :: rest
    else if k < k' then (k, d) :: (k', v) :: rest
    else (k', v) :: upsertA rest k f d

/-- Keys strictly ascending (the invariant a `BTreeMap` model maintains). -/
def ascA {α : Type} : List (Nat × α) → Bool
  | (k1, _) :: (k2, v2) :: rest => decide (k1 < k2) && ascA ((k2, v2) :: rest)
  | _ => true

structure Bus where
  id : Nat
  route : List City
  upcoming_stops : List City
  time_people_getting_off : List (City × Nat)
  finished : Bool
deriving DecidableEq, Repr

/-- `Bus::new`: route deque from the given list, `upcoming_stops` the set of
its cities (a list with name-based membership is observationally the same),
empty travel-time memo, not finished. -/
def Bus.new (route : List City) (id : Nat) : Bus :=
  { id := id
    route := route
    upcoming_stops := route
    time_people_getting_off := []
    finished := false }

/-- `Bus::current_stop`: front of the route; `none` models the `unwrap`
panic on an empty route. -/
def Bus.current_stop (b : Bus) : Option City :=
  b.route.head?

/-- `Bus::is_upcoming_stop`: `upcoming_stops.contains(&city) && city != current_stop()`.
The Rust `&&` short-circuits, so `current_stop` (which can panic) is only
consulted when the membership test succeeds.  Both comparisons use the
derived `City` equality, i.e. name equality. -/
def Bus.is_upcoming_stop (b : Bus) (city : City) : Option Bool :=
  if b.upcoming_stops.any (fun c => c.name == city.name) then
    match b.current_stop with
    | none => none
    | some cur => some (!(city.name == cur.name))
  else some false

/-- `Bus::move_to_next`: no-op when finished; otherwise pop the front of the
route and remove it from `upcoming_stops`; if the route was already empty,
set `finished`.  The travel-time memo is left untouched. -/
def Bus.move_to_next (b : Bus) : Bus :=
  if b.finished then b
  else
    match b.route with
    | next_city :: rest =>
      { b with
          route := rest
          upcoming_stops := b.upcoming_stops.filter (fun c => !(c.name == next_city.name)) }
    | [] => { b with finished := true }

/-- The road search in `Bus::calculate_travel_time` and
`Simulation::valid_route`: find a road joining the two cities in either
orientation, comparing endpoints with `Arc::ptr_eq` (modelled by `addr`). -/
def findRoad (roads : List Road) (current_stop city : City) : Option Road :=
  roads.find? (fun road =>
    (road.point_a.addr == current_stop.addr && road.point_b.addr == city.addr) ||
    (road.point_a.addr == city.addr && road.point_b.addr == current_stop.addr))

/-- The accumulation loop of `Bus::calculate_travel_time`: walk the route
past the current stop, adding each connecting road's travel time, stopping
(by `Arc::ptr_eq`) once the requested stop is reached; a missing road skips
the city without advancing `current_stop`. -/
def travelLoop (roads : List Road) (stop : City) : List City → City → Nat → Nat
  | [], _, total_travel_time => total_travel_time
  | city :: rest, current_stop, total_travel_time =>
    match findRoad roads current_stop city with
    | some road =>
      if city.addr = stop.addr then total_travel_time + road.travel_time
      else travelLoop roads stop rest city (total_travel_time + road.travel_time)
    | none => travelLoop roads stop rest current_stop total_travel_time

/-- `Bus::calculate_travel_time`: return the memoized value when present;
otherwise accumulate `current_time` plus road travel times along the route
up to `stop`, memoize the result, and return it together with the updated
bus.  `none` models the `current_stop` unwrap panic on an empty route. -/
def Bus.calculate_travel_time (b : Bus) (roads : List Road) (stop : City)
    (current_time : Nat) : Option (Nat × Bus) :=
  match lookupW b.time_people_getting_off stop with
  | some travel_time => some (travel_time, b)
  | none =>
    match b.route with
    | [] => none
    | current_stop :: rest =>
      let total_travel_time := travelLoop roads stop rest current_stop current_time
      some (total_travel_time,
        { b with
            time_people_getting_off :=
              upsertW b.time_people_getting_off stop
                (fun _ => total_travel_time) total_travel_time })

structure Event where
  bus_id : Nat
  city : City
  got_off_count : Nat
  got_on_count : Nat
deriving DecidableEq, Repr

abbrev BusEvents := List (Nat × Event)
abbrev EventQueue := List (Nat × BusEvents)

/-- Lookup of the pending event at a `(tick, busId)` slot of the schedule. -/
def lookup2 (q : EventQueue) (t bid : Nat) : Option Event :=
  (lookupA q t).bind (fun bus_events => lookupA bus_events bid)

/-- Well-formedness of the event-queue model: the outer tick keys and every
inner bus-id key list are strictly ascending, as in the `BTreeMap`s. -/
def queueWf (q : EventQueue) : Bool :=
  ascA q && q.all (fun p => ascA p.2)

/-- The `got_off_count += people_waiting` mutation applied to a pending
event in `Simulation::process_waiting_people`. -/
def bumpOff (people_waiting : Nat) (e : Event) : Event :=
  { e with got_off_count := e.got_off_count + people_waiting }

/-- The scheduling step of `Simulation::process_waiting_people`:
`event_queue.entry(travel_time).or_insert_with(..).entry(bus_id).or_insert_with(fresh event at the destination)`
followed by `got_off_count += people_waiting` on the resulting entry. -/
def scheduleMerge (q : EventQueue) (travel_time bus_id : Nat) (destination : City)
    (people_waiting : Nat) : EventQueue :=
  upsertA q travel_time
    (fun bus_events =>
      upsertA bus_events bus_id (bumpOff people_waiting)
        (bumpOff people_waiting ⟨bus_id, destination, 0, 0⟩))
    [(bus_id, bumpOff people_waiting ⟨bus_id, destination, 0, 0⟩)]

structure Simulation where
  buses : List Bus
  roads : List Road
  waiting_people : List (City × List (City × Nat))
  next_bus_id : Nat
  event_queue : EventQueue
  current_time : Nat
deriving DecidableEq, Repr

/-- `Simulation::new`. -/
def Simulation.new : Simulation :=
  { buses := []
    roads := []
    waiting_people := []
    next_bus_id := 0
    event_queue := []
    current_time := 0 }

/-- `Simulation::new_road`: build the road and add it to the road set (the
scenarios below never insert duplicates, so a plain append models the
`HashSet` insert). -/
def Simulation.new_road (s : Simulation) (a b : City) (travel_time : Nat) : Simulation :=
  { s with roads := s.roads ++ [⟨travel_time, a, b⟩] }

/-- The consecutive-pair check inside `Simulation::valid_route`
(`route.windows(2).all(..)` over the road set, both orientations,
pointer equality). -/
def windowsConnected (roads : List Road) : List City → Bool
  | a :: b :: rest => (findRoad roads a b).isSome && windowsConnected roads (b :: rest)
  | _ => true

/-- `Simulation::valid_route` as a predicate: `true` iff neither of its two
panics fires (route too short, or some consecutive pair unconnected). -/
def Simulation.valid_route (s : Simulation) (route : List City) : Bool :=
  decide (2 ≤ route.length) && windowsConnected s.roads route

/-- `Simulation::add_event`: `event_queue.entry(time).or_insert_with(..).insert(bus_id, event)` —
the inner `BTreeMap::insert` replaces any existing entry. -/
def Simulation.add_event (s : Simulation) (event : Event) (time : Nat) : Simulation :=
  { s with
      event_queue :=
        upsertA s.event_queue time
          (fun bus_events => upsertA bus_events event.bus_id (fun _ => event) event)
          [(event.bus_id, event)] }

/-- `Simulation::new_bus`: validate the route (`none` models the panic),
create the bus with the next sequential id, append it, and enqueue its
initial event at the current tick located at the bus's current stop with
zero counts. -/
def Simulation.new_bus (s : Simulation) (route : List City) : Option Simulation :=
  if s.valid_route route then
    match route.head? with
    | none => none
    | some first =>
      let bus := Bus.new route s.next_bus_id
      let s1 := { s with buses := s.buses ++ [bus], next_bus_id := s.next_bus_id + 1 }
      some (s1.add_event ⟨bus.id, first, 0, 0⟩ s1.current_time)
  else none

/-- `Simulation::add_people`: accumulate `count` into the nested
origin → destination waiting map, creating entries (initialised to 0) as
needed. -/
def Simulation.add_people (s : Simulation) (fromCity toCity : City) (count : Nat) : Simulation :=
  { s with
      waiting_people :=
        upsertW s.waiting_people fromCity
          (fun destination_counts => upsertW destination_counts toCity (fun n => n + count) count)
          [(toCity, count)] }

/-- The ledger-zeroing step of `Simulation::process_waiting_people`:
`waiting_people.get_mut(&event.city).unwrap().get_mut(destination).unwrap() = 0`;
`none` models either unwrap panic. -/
def zero_waiting (s : Simulation) (origin destination : City) : Option Simulation :=
  match lookupW s.waiting_people origin with
  | none => none
  | some destination_counts =>
    match lookupW destination_counts destination with
    | none => none
    | some _ =>
      some { s with
        waiting_people :=
          upsertW s.waiting_people origin
            (fun m => upsertW m destination (fun _ => 0) 0) [] }

/-- Bus store access: the unique bus with the given id (events reference
their bus through it, modelling the shared `Arc<Bus>`). -/
def Simulation.getBus (s : Simulation) (id : Nat) : Option Bus :=
  s.buses.find? (fun b => b.id == id)

/-- Write back a mutated bus into the store (ids are unique in reachable
states). -/
def Simulation.setBus (s : Simulation) (bus : Bus) : Simulation :=
  { s with buses := s.buses.map (fun b => if b.id == bus.id then bus else b) }

/-- The loop body of `Simulation::process_waiting_people` over the cloned
destination map of the event's city: for each destination with positive
waiting count that is still an upcoming stop of the event's bus, compute the
travel time (memoizing on the bus), merge a follow-on event into the
schedule at that tick, add the boarded count to the current event, and zero
the ledger entry. -/
def processDests (s : Simulation) (e : Event) (current_time : Nat) :
    List (City × Nat) → Option (Simulation × Event)
  | [] => some (s, e)
  | (destination, people_waiting) :: rest =>
    if 0 < people_waiting then
      match s.getBus e.bus_id with
      | none => none
      | some bus =>
        match bus.is_upcoming_stop destination with
        | none => none
        | some false => processDests s e current_time rest
        | some true =>
          match bus.calculate_travel_time s.roads destination current_time with
          | none => none
          | some (travel_time, bus1) =>
            let s1 := s.setBus bus1
            let s2 := { s1 with
              event_queue :=
                scheduleMerge s1.event_queue travel_time e.bus_id destination people_waiting }
            let e1 := { e with got_on_count := e.got_on_count + people_waiting }
            match zero_waiting s2 e1.city destination with
            | none => none
            | some s3 => processDests s3 e1 current_time rest
    else processDests s e current_time rest

/-- `Simulation::process_waiting_people`: snapshot (clone) the destination
map of the event's city, then run the boarding loop over it.  The returned
event is the local working copy carrying the accumulated boarded count. -/
def Simulation.process_waiting_people (s : Simulation) (e : Event) (current_time : Nat) :
    Option (Simulation × Event) :=
  match lookupW s.waiting_people e.city with
  | none => some (s, e)
  | some destinations => processDests s e current_time destinations

/-- The inner loop of `Simulation::execute` over the snapshot of one tick's
due events: process each, advance its bus one stop, and append the
processed event to the result list. -/
def execEvents (current_time : Nat) :
    Simulation → List Event → List Event → Option (Simulation × List Event)
  | s, [], acc => some (s, acc)
  | s, e :: rest, acc =>
    match s.process_waiting_people e current_time with
    | none => none
    | some (s1, pe) =>
      match s1.getBus pe.bus_id with
      | none => none
      | some bus => execEvents current_time (s1.setBus bus.move_to_next) rest (acc ++ [pe])

/-- The tick loop of `Simulation::execute`: for each tick of the window, if
the schedule has a bucket at that tick, snapshot its events (in ascending
bus-id order, as `BTreeMap::values` iterates) and process them; buckets are
never removed. -/
def execTicks : Simulation → Nat → Nat → List Event → Option (Simulation × List Event)
  | s, _, 0, acc => some (s, acc)
  | s, current_time, Nat.succ n, acc =>
    match lookupA s.event_queue current_time with
    | none => execTicks s (current_time + 1) n acc
    | some bus_events =>
      match execEvents current_time s (bus_events.map Prod.snd) [] with
      | none => none
      | some (s1, processed) => execTicks s1 (current_time + 1) n (acc ++ processed)

/-- `Simulation::execute`: run the tick loop over the window, then advance
`current_time` by the full requested amount. -/
def Simulation.execute (s : Simulation) (time_units_count : Nat) :
    Option (List Event × Simulation) :=
  match execTicks s s.current_time time_units_count [] with
  | none => none
  | some (s1, events) =>
    some (events, { s1 with current_time := s1.current_time + time_units_count })

/-! Concrete scenarios used by the claim theorems.  Distinct `addr` values
model distinct `Arc` allocations. -/

/-- City Plzen of the end-to-end scenario. -/
def plsC : City := ⟨0, "Plzen"⟩

/-- City Prague of the end-to-end scenario. -/
def prgC : City := ⟨1, "Prague"⟩

/-- City Brno of the end-to-end scenario. -/
def brnC : City := ⟨2, "Brno"⟩

/-- City Usti of the end-to-end scenario. -/
def ustC : City := ⟨3, "Usti"⟩

/-- The end-to-end simulation of claim C1: the four cities and roads, one
bus with route `[Plzen, Prague, Brno]`, and 50 people waiting
Prague → Brno. -/
def simC1 : Option Simulation :=
  let s := ((((Simulation.new.new_road plsC prgC 90).new_road prgC brnC 120
    ).new_road prgC ustC 80).new_road plsC ustC 110)
  (s.new_bus [plsC, prgC, brnC]).map (fun s1 => s1.add_people prgC brnC 50)

/-- The events returned by `execute(270)` in the C1 scenario. -/
def runC1 : Option (List Event) :=
  simC1.bind (fun s => (s.execute 270).map Prod.fst)

/-- Generic two-city scenario: city a. -/
def aC : City := ⟨10, "A"⟩

/-- Generic two-city scenario: city b. -/
def bC : City := ⟨11, "B"⟩

/-- Fresh bus on route `[a, b]` used by the C2 and C5 scenarios. -/
def busAB : Bus := Bus.new [aC, bC] 0

/-- Single road a–b of travel time 5. -/
def roadsAB : List Road := [⟨5, aC, bC⟩]

/-- C2 scenario: compute (and hence memoize) the travel time to b, then
advance the bus. -/
def busC2 : Option Bus :=
  (busAB.calculate_travel_time roadsAB bC 0).map (fun p => p.2.move_to_next)

/-- Route cities of the C6 travel-time scenario. -/
def c61 : City := ⟨20, "c1"⟩

/-- Second route city of the C6 travel-time scenario. -/
def c62 : City := ⟨21, "c2"⟩

/-- Third route city of the C6 travel-time scenario. -/
def c63 : City := ⟨22, "c3"⟩

/-- Roads c1–c2 (time 5) and c2–c3 (time 7). -/
def roadsC6 : List Road := [⟨5, c61, c62⟩, ⟨7, c62, c63⟩]

/-- Fresh bus on route `[c1, c2, c3]`. -/
def busC6 : Bus := Bus.new [c61, c62, c63] 0

/-- C7 scenario: road a–b (time 5), bus `[a, b]`, then
`addPeople(a, b, 5)` and `addPeople(a, b, 3)`. -/
def simC7 : Option Simulation :=
  ((Simulation.new.new_road aC bC 5).new_bus [aC, bC]).map
    (fun s => (s.add_people aC bC 5).add_people aC bC 3)

/-- The waiting count of the (a, b) ledger entry. -/
def waitingAB (s : Simulation) : Option Nat :=
  (lookupW s.waiting_people aC).bind (fun inner => lookupW inner bC)

/-- C7 scenario after `execute(1)` (boarding resolution zeroes the entry). -/
def simC7run : Option Simulation :=
  simC7.bind (fun s => (s.execute 1).map Prod.snd)

/-- C4 scenario: zero-travel-time road a4–b4, bus `[a4, b4]`, 5 people
waiting a4 → b4. -/
def a4C : City := ⟨30, "A4"⟩

/-- Destination city of the C4 scenario. -/
def b4C : City := ⟨31, "B4"⟩

/-- The C4 simulation before execution. -/
def simC4 : Option Simulation :=
  ((Simulation.new.new_road a4C b4C 0).new_bus [a4C, b4C]).map
    (fun s => s.add_people a4C b4C 5)

/-- The event-queue slot at (tick 0, bus 0) after the C4 scenario has
processed tick 0. -/
def slotC4 : Option (Option Event) :=
  simC4.bind (fun s => (s.execute 1).map (fun p => lookup2 p.2.event_queue 0 0))

/-- Two distinct city instances with the same name, for C9. -/
def x1C : City := ⟨40, "X"⟩

/-- Second instance carrying the same name as `x1C` but a different
address. -/
def x2C : City := ⟨41, "X"⟩

/-- Auxiliary city of the C9 scenario. -/
def a9C : City := ⟨42, "A9"⟩

/-- Bus whose route contains `x1C` (but never `x2C`). -/
def busC9 : Bus := Bus.new [a9C, x1C] 2

/-- C10 witness scenario: a simulation with one road, before any bus. -/
def c10s : Simulation := Simulation.new.new_road aC bC 5

/-- The C10 simulation after creating the bus `[a, b]`. -/
def c10s1 : Simulation := (c10s.new_bus [aC, bC]).getD c10s

/-- Pre-populated queue for the C3 witness: one pending event at
(tick 5, bus 0). -/
def q3 : EventQueue := [(5, [(0, ⟨0, aC, 1, 2⟩)])]

/-- The pending event sitting in `q3`. -/
def e3 : Event := ⟨0, aC, 1, 2⟩

/-! Helper lemmas about the ordered association-list model of `BTreeMap`. -/

theorem ascA_tail {α : Type} (k : Nat) (v : α) (rest : List (Nat × α))
    (h : ascA ((k, v) :: rest) = true) : ascA rest = true := by
  cases rest with
  | nil => rfl
  | cons p rest' =>
    obtain ⟨k2, v2⟩ := p
    simp only [ascA, Bool.and_eq_true] at h
    exact h.2

theorem lookupA_none_of_head_lt {α : Type} :
    ∀ (rest : List (Nat × α)) (k k0 : Nat) (v : α),
      ascA ((k0, v) :: rest) = true → k < k0 →
      lookupA ((k0, v) :: rest) k = none
  | [], k, k0, v, _, hlt => by
    simp [lookupA, Nat.ne_of_lt hlt]
  | (k1, v1) :: rest', k, k0, v, h, hlt => by
    have h01 : k0 < k1 := by
      simp only [ascA, Bool.and_eq_true, decide_eq_true_eq] at h
      exact h.1
    have htail : ascA ((k1, v1) :: rest') = true := ascA_tail k0 v _ h
    simp only [lookupA, if_neg (Nat.ne_of_lt hlt)]
    exact lookupA_none_of_head_lt rest' k k1 v1 htail (Nat.lt_trans hlt h01)

theorem lookupA_mem {α : Type} :
    ∀ (m : List (Nat × α)) (k : Nat) (v : α),
      lookupA m k = some v → (k, v) ∈ m
  | [], k, v, h => by cases h
  | (k', v') :: rest, k, v, h => by
    simp only [lookupA] at h
    split at h
    · rename_i heq
      injection h with hv
      subst heq
      subst hv
      exact List.mem_cons_self _ _
    · exact List.mem_cons_of_mem _ (lookupA_mem rest k v h)

theorem lookupA_upsertA_ne {α : Type} (f : α → α) (d : α) (k k2 : Nat) (hne : k2 ≠ k) :
    ∀ m : List (Nat × α), lookupA (upsertA m k f d) k2 = lookupA m k2
  | [] => by simp [upsertA, lookupA, hne]
  | (k', v) :: rest => by
    by_cases hk : k = k'
    · subst hk
      simp only [upsertA, if_pos rfl, lookupA, if_neg hne]
    · by_cases hlt : k < k'
      · simp only [upsertA, if_neg hk, if_pos hlt, lookupA, if_neg hne]
      · simp only [upsertA, if_neg hk, if_neg hlt, lookupA]
        by_cases h2 : k2 = k'
        · simp [h2]
        · simp only [if_neg h2]
          exact lookupA_upsertA_ne f d k k2 hne rest

theorem lookupA_upsertA_some {α : Type} (f : α → α) (d : α) :
    ∀ (m : List (Nat × α)) (k : Nat) (v : α),
      ascA m = true → lookupA m k = some v →
      lookupA (upsertA m k f d) k = some (f v)
  | [], k, v, _, hl => by cases hl
  | (k', v') :: rest, k, v, hasc, hl => by
    by_cases hk : k = k'
    · subst hk
      simp only [lookupA] at hl
      split at hl
      · injection hl with hv
        subst hv
        simp [upsertA, lookupA]
      · rename_i hne
        exact absurd trivial hne
    · by_cases hlt : k < k'
      · rw [lookupA_none_of_head_lt rest k k' v' hasc hlt] at hl
        cases hl
      · simp only [lookupA, if_neg hk] at hl
        simp only [upsertA, if_neg hk, if_neg hlt, lookupA, if_neg hk]
        exact lookupA_upsertA_some f d rest k v (ascA_tail k' v' rest hasc) hl

theorem lookupA_upsertA_none {α : Type} (f : α → α) (d : α) :
    ∀ (m : List (Nat × α)) (k : Nat),
      ascA m = true → lookupA m k = none →
      lookupA (upsertA m k f d) k = some d
  | [], k, _, _ => by simp [upsertA, lookupA]
  | (k', v') :: rest, k, hasc, hl => by
    by_cases hk : k = k'
    · subst hk
      simp only [lookupA] at hl
      split at hl
      · cases hl
      · rename_i hne
        exact absurd trivial hne
    · by_cases hlt : k < k'
      · simp [upsertA, if_neg hk, if_pos hlt, lookupA]
      · simp only [lookupA, if_neg hk] at hl
        simp only [upsertA, if_neg hk, if_neg hlt, lookupA, if_neg hk]
        exact lookupA_upsertA_none f d rest k (ascA_tail k' v' rest hasc) hl

theorem travelLoop_le (roads : List Road) (stop : City) :
    ∀ (l : List City) (cur : City) (total : Nat),
      total ≤ travelLoop roads stop l cur total
  | [], _, _ => Nat.le_refl _
  | city :: rest, cur, total => by
    simp only [travelLoop]
    cases hfr : findRoad roads cur city with
    | none => exact travelLoop_le roads stop rest cur total
    | some road =>
      by_cases haddr : city.addr = stop.addr
      · simp only [if_pos haddr]
        exact Nat.le_add_right _ _
      · simp only [if_neg haddr]
        exact Nat.le_trans (Nat.le_add_right _ _) (travelLoop_le roads stop rest city _)

theorem windowsConnected_iff (roads : List Road) :
    ∀ r : List City, windowsConnected roads r = true ↔
      ∀ p ∈ r.zip r.tail, (findRoad roads p.1 p.2).isSome = true := by
  intro r
  induction r with
  | nil => simp [windowsConnected]
  | cons a r' ih =>
    cases r' with
    | nil => simp [windowsConnected]
    | cons b rest =>
      simp only [windowsConnected, Bool.and_eq_true, List.tail_cons, List.zip_cons_cons,
        List.mem_cons] at *
      constructor
      · rintro ⟨h1, h2⟩ p (hp | hp)
        · subst hp; exact h1
        · exact ih.1 h2 p hp
      · intro h
        exact ⟨h (a, b) (Or.inl rfl), ih.2 (fun p hp => h p (Or.inr hp))⟩

/-! The claim theorems. -/

/-- Claim C1, counterexample: in the C1 scenario (cities Plzen, Prague,
Brno, Usti with the four roads, one bus routed [Plzen, Prague, Brno], 50
people waiting Prague → Brno), `execute(270)` succeeds but returns no event
with alighted count 50 and no event with boarded count 50 — in particular
neither of the two events the claim requires exists. -/
theorem c1_counterexample :
    runC1.isSome = true ∧
    ∀ e ∈ runC1.getD [], e.got_off_count ≠ 50 ∧ e.got_on_count ≠ 50 := by
  decide

/-- Claim C1, amended: in the C1 scenario `execute(270)` returns exactly one
event — the bus-creation event at Plzen with both counts 0 — and advances
the clock to 270.  The 50 Prague → Brno passengers never board: no one
waits at Plzen, so processing the initial event schedules no follow-on
event and the bus is never dispatched again. -/
theorem c1_amended_theorem :
    runC1 = some [⟨0, plsC, 0, 0⟩] ∧
    simC1.bind (fun s => (s.execute 270).map (fun p => p.2.current_time)) = some 270 := by
  decide

/-- Claim C2, counterexample: a bus on route [a, b] with road a–b of time 5
computes (and memoizes) the travel time to b, then advances; after the
advance the bus sits at b yet the memo still holds the entry for b computed
from the previous current stop a — the advance does not clear the cache. -/
theorem c2_counterexample :
    busC2.map (fun b => (b.route, lookupW b.time_people_getting_off bC)) =
      some ([bC], some 5) := by
  decide

/-- Claim C2, amended: `move_to_next` never touches the travel-time memo;
every cached entry (all computed from earlier positions) survives every
advance unchanged. -/
theorem c2_amended_theorem (b : Bus) :
    (b.move_to_next).time_people_getting_off = b.time_people_getting_off := by
  unfold Bus.move_to_next
  by_cases hf : b.finished
  · rw [if_pos hf]
  · rw [if_neg hf]
    rcases h : b.route with _ | ⟨c, rest⟩ <;> simp [h]

/-- Claim C3: the boarding-resolution scheduling step of
`process_waiting_people` merges additively into an existing (tick, busId)
entry instead of replacing it — the pending event keeps its bus, city and
boarded count, and its alighted count grows by the waiting count; applying
this twice at the same slot therefore accumulates both contributions. -/
theorem c3_merge_theorem (q : EventQueue) (travel_time bus_id : Nat) (destination : City)
    (people_waiting : Nat) (e : Event)
    (hwf : queueWf q = true) (h : lookup2 q travel_time bus_id = some e) :
    lookup2 (scheduleMerge q travel_time bus_id destination people_waiting)
        travel_time bus_id =
      some { e with got_off_count := e.got_off_count + people_waiting } := by
  unfold queueWf at hwf
  rw [Bool.and_eq_true] at hwf
  obtain ⟨hasc, hall⟩ := hwf
  unfold lookup2 at h ⊢
  cases hQ : lookupA q travel_time with
  | none => rw [hQ] at h; cases h
  | some bus_events =>
    rw [hQ, Option.some_bind] at h
    have hin : ascA bus_events = true := by
      have hmem := lookupA_mem q travel_time bus_events hQ
      exact List.all_eq_true.mp hall _ hmem
    unfold scheduleMerge
    rw [lookupA_upsertA_some _ _ q travel_time bus_events hasc hQ, Option.some_bind]
    rw [lookupA_upsertA_some _ _ bus_events bus_id e hin h]
    rfl

/-- Witness for C3 at a concrete queue: the slot (tick 5, bus 0) holds the
event `e3`; merging 7 more alighting passengers yields the same event with
alighted count 1 + 7. -/
theorem c3_merge_witness :
    queueWf q3 = true ∧ lookup2 q3 5 0 = some e3 ∧
    lookup2 (scheduleMerge q3 5 0 bC 7) 5 0 =
      some { e3 with got_off_count := e3.got_off_count + 7 } :=
  ⟨by decide, by decide, c3_merge_theorem q3 5 0 bC 7 e3 (by decide) (by decide)⟩

/-- Claim C4, counterexample: with a zero-travel-time road a4–b4, a bus
[a4, b4] and 5 people waiting a4 → b4, processing tick 0 merges the
boarding resolution's follow-on event into the schedule slot at tick 0
itself — the very tick being processed, not a strictly later one.  Before
execution that slot holds the initial event with counts 0/0; afterwards its
alighted count is 5. -/
theorem c4_counterexample :
    simC4.map (fun s => lookup2 s.event_queue 0 0) = some (some ⟨0, a4C, 0, 0⟩) ∧
    slotC4 = some (some ⟨0, a4C, 5, 0⟩) := by
  decide

/-- Claim C4, amended: a travel time computed fresh (no memo hit, nonempty
route) is the current tick plus a sum of nonnegative road times, hence at
least the current tick — but with zero-travel-time roads it can equal the
current tick, so boarding resolution enqueues at ticks ≥ t, not strictly
greater. -/
theorem c4_amended_theorem (b : Bus) (roads : List Road) (stop cur : City)
    (rest : List City) (now : Nat)
    (hc : lookupW b.time_people_getting_off stop = none)
    (hr : b.route = cur :: rest) :
    ∃ t b1, b.calculate_travel_time roads stop now = some (t, b1) ∧ now ≤ t := by
  unfold Bus.calculate_travel_time
  rw [hc, hr]
  exact ⟨_, _, rfl, travelLoop_le roads stop rest cur now⟩

/-- Witness for the amended C4 at the fresh bus of the C6 scenario. -/
theorem c4_amended_witness :
    ∃ t b1, busC6.calculate_travel_time roadsC6 c63 0 = some (t, b1) ∧ 0 ≤ t :=
  c4_amended_theorem busC6 roadsC6 c63 c61 [c62, c63] 0 rfl rfl

/-- Claim C5, counterexample: advancing a bus on route [a, b] twice empties
the route, yet `finished` is still false after the emptying advance — the
advance that empties the route does not set `finished` in that same call
(only a further advance on the already-empty route does). -/
theorem c5_counterexample :
    (busAB.move_to_next.move_to_next).route = [] ∧
    (busAB.move_to_next.move_to_next).finished = false := by
  decide

/-- Claim C5, amended: `move_to_next` leaves `finished` true exactly when
the bus was already finished or its route was already empty before the
call; popping the last stop leaves a transient state with an empty route
and `finished = false`. -/
theorem c5_amended_theorem (b : Bus) :
    (b.move_to_next).finished = true ↔ (b.finished = true ∨ b.route = []) := by
  unfold Bus.move_to_next
  by_cases hf : b.finished
  · simp [hf]
  · rw [if_neg hf]
    rcases h : b.route with _ | ⟨c, rest⟩
    · simp [h]
    · simp [h, hf]

/-- Claim C6: for the fresh bus on route [c1, c2, c3] with roads c1–c2 of
time 5 and c2–c3 of time 7, `travelTimeTo(c3)` from the fresh (unmemoized)
state returns 0 + 5 + 7 = 12 at current time 0 and 10 + 5 + 7 = 22 at
current time 10 — the given current time plus the sum of road travel times
along consecutive route pairs up to the destination. -/
theorem c6_travel_time_theorem :
    (busC6.calculate_travel_time roadsC6 c63 0).map Prod.fst = some 12 ∧
    (busC6.calculate_travel_time roadsC6 c63 10).map Prod.fst = some 22 := by
  decide

/-- Claim C7: in the C7 scenario, `addPeople(a,b,5)` then `addPeople(a,b,3)`
yields waiting count 8 at (a, b); after `execute(1)` boards them the entry
is still present but zeroed (lookup yields `some 0`, not `none`); a further
`addPeople(a,b,2)` then yields 2, not 10. -/
theorem c7_ledger_theorem :
    simC7.bind waitingAB = some 8 ∧
    simC7run.bind waitingAB = some 0 ∧
    (simC7run.map (fun s => s.add_people aC bC 2)).bind waitingAB = some 2 := by
  decide

/-- Claim C8: `new_bus` fails (returns `none`, modelling the construction
panic, with no bus created) exactly when the route has fewer than two stops
or some consecutive pair of stops has no connecting road in either
orientation. -/
theorem c8_new_bus_theorem (s : Simulation) (r : List City) :
    s.new_bus r = none ↔
      (r.length < 2 ∨ ∃ p ∈ r.zip r.tail, findRoad s.roads p.1 p.2 = none) := by
  unfold Simulation.new_bus
  by_cases hv : s.valid_route r = true
  · rw [if_pos hv]
    unfold Simulation.valid_route at hv
    rw [Bool.and_eq_true, decide_eq_true_eq] at hv
    obtain ⟨hlen, hwin⟩ := hv
    have hall := (windowsConnected_iff s.roads r).1 hwin
    cases r with
    | nil => simp at hlen
    | cons first rest =>
      simp only [List.head?]
      constructor
      · intro h; cases h
      · rintro (h | ⟨p, hp, hnone⟩)
        · simp only [List.length_cons] at h hlen; omega
        · have := hall p hp
          rw [hnone] at this
          cases this
  · rw [if_neg hv]
    simp only [true_iff]
    unfold Simulation.valid_route at hv
    rw [Bool.and_eq_true, decide_eq_true_eq] at hv
    by_cases hlen : 2 ≤ r.length
    · right
      have hw : ¬ windowsConnected s.roads r = true := fun h => hv ⟨hlen, h⟩
      have hnall : ¬ ∀ p ∈ r.zip r.tail, (findRoad s.roads p.1 p.2).isSome = true :=
        fun hforall => hw ((windowsConnected_iff s.roads r).2 hforall)
      push_neg at hnall
      obtain ⟨p, hp, hns⟩ := hnall
      refine ⟨p, hp, ?_⟩
      cases hfr : findRoad s.roads p.1 p.2 with
      | none => rfl
      | some road => rw [hfr] at hns; simp at hns
    · left; omega

/-- Claim C9, counterexample: `x1C` and `x2C` are distinct City instances
(different addresses) carrying the same name; the bus's route contains only
`x1C`, yet `is_upcoming_stop` answers true for `x2C` — route membership
compares by name, treating the two instances as the same city, not as
different ones. -/
theorem c9_counterexample :
    busC9.is_upcoming_stop x2C = some true ∧ x1C.addr ≠ x2C.addr ∧
    x1C.name = x2C.name ∧ busC9.upcoming_stops = [a9C, x1C] := by
  decide

/-- Claim C9, amended: `is_upcoming_stop` depends only on city names (two
same-named instances are interchangeable there), whereas the road lookup
used for travel-time computation and route validation depends only on the
identity (address) of the endpoints. -/
theorem c9_amended_theorem :
    (∀ (b : Bus) (c d : City), c.name = d.name →
      b.is_upcoming_stop c = b.is_upcoming_stop d) ∧
    (∀ (roads : List Road) (c c' d d' : City), c.addr = c'.addr → d.addr = d'.addr →
      findRoad roads c d = findRoad roads c' d') := by
  constructor
  · intro b c d h
    unfold Bus.is_upcoming_stop
    rw [h]
  · intro roads c c' d d' h1 h2
    unfold findRoad
    rw [h1, h2]

/-- Witness for the amended C9: the same-named instances `x1C`, `x2C` get
the same `is_upcoming_stop` answer on `busC9`, and the road lookup gives
the same answer for a city as for a differently-named city at the same
address. -/
theorem c9_amended_witness :
    busC9.is_upcoming_stop x1C = busC9.is_upcoming_stop x2C ∧
    findRoad roadsAB aC bC = findRoad roadsAB ⟨10, "Alias"⟩ bC :=
  ⟨c9_amended_theorem.1 busC9 x1C x2C rfl,
   c9_amended_theorem.2 roadsAB aC ⟨10, "Alias"⟩ bC bC rfl rfl⟩

/-- Claim C10: on a well-formed schedule, a successful `new_bus` enqueues
exactly one event — at the simulation's current tick, for the fresh bus id,
located at the first stop of the route, with both counts 0 — and leaves
every other (tick, busId) slot of the schedule unchanged; the bus list
grows by exactly the new bus and the clock does not move. -/
theorem c10_initial_event_theorem (s s' : Simulation) (r : List City)
    (hwf : queueWf s.event_queue = true)
    (h : s.new_bus r = some s') :
    (∃ first rest, r = first :: rest ∧
      lookup2 s'.event_queue s.current_time s.next_bus_id =
        some ⟨s.next_bus_id, first, 0, 0⟩) ∧
    (∀ t bid, ¬(t = s.current_time ∧ bid = s.next_bus_id) →
      lookup2 s'.event_queue t bid = lookup2 s.event_queue t bid) ∧
    s'.buses = s.buses ++ [Bus.new r s.next_bus_id] ∧
    s'.current_time = s.current_time ∧
    s'.next_bus_id = s.next_bus_id + 1 := by
  unfold queueWf at hwf
  rw [Bool.and_eq_true] at hwf
  obtain ⟨hasc, hall⟩ := hwf
  unfold Simulation.new_bus at h
  by_cases hv : s.valid_route r = true
  · rw [if_pos hv] at h
    cases r with
    | nil =>
      exact absurd hv (by simp [Simulation.valid_route])
    | cons first rest =>
      simp only [List.head?] at h
      injection h with h
      subst h
      unfold Simulation.add_event
      simp only [Bus.new]
      refine ⟨⟨first, rest, rfl, ?_⟩, ?_, by trivial, by trivial, by trivial⟩
      · unfold lookup2
        cases hQ : lookupA s.event_queue s.current_time with
        | none =>
          rw [lookupA_upsertA_none _ _ s.event_queue s.current_time hasc hQ, Option.some_bind]
          simp [lookupA]
        | some bus_events =>
          rw [lookupA_upsertA_some _ _ s.event_queue s.current_time bus_events hasc hQ,
            Option.some_bind]
          have hin : ascA bus_events = true :=
            List.all_eq_true.mp hall _ (lookupA_mem s.event_queue s.current_time bus_events hQ)
          cases hI : lookupA bus_events s.next_bus_id with
          | none =>
            rw [lookupA_upsertA_none _ _ bus_events s.next_bus_id hin hI]
          | some v =>
            rw [lookupA_upsertA_some _ _ bus_events s.next_bus_id v hin hI]
      · intro t bid hne
        unfold lookup2
        by_cases ht : t = s.current_time
        · have hbid : bid ≠ s.next_bus_id := fun hb => hne ⟨ht, hb⟩
          subst ht
          cases hQ : lookupA s.event_queue s.current_time with
          | none =>
            rw [lookupA_upsertA_none _ _ s.event_queue s.current_time hasc hQ,
              Option.some_bind, Option.none_bind]
            simp [lookupA, if_neg hbid]
          | some bus_events =>
            rw [lookupA_upsertA_some _ _ s.event_queue s.current_time bus_events hasc hQ,
              Option.some_bind, Option.some_bind]
            exact lookupA_upsertA_ne _ _ s.next_bus_id bid hbid bus_events
        · rw [lookupA_upsertA_ne _ _ s.current_time t ht s.event_queue]
  · rw [if_neg hv] at h
    cases h

/-- Witness for C10 at the concrete one-road simulation `c10s`: creating
the bus [a, b] yields `c10s1` with the single initial event at tick 0 for
bus 0 at city a. -/
theorem c10_initial_event_witness :
    (∃ first rest, [aC, bC] = first :: rest ∧
      lookup2 c10s1.event_queue c10s.current_time c10s.next_bus_id =
        some ⟨c10s.next_bus_id, first, 0, 0⟩) ∧
    (∀ t bid, ¬(t = c10s.current_time ∧ bid = c10s.next_bus_id) →
      lookup2 c10s1.event_queue t bid = lookup2 c10s.event_queue t bid) ∧
    c10s1.buses = c10s.buses ++ [Bus.new [aC, bC] c10s.next_bus_id] ∧
    c10s1.current_time = c10s.current_time ∧
    c10s1.next_bus_id = c10s.next_bus_id + 1 :=
  c10_initial_event_theorem c10s c10s1 [aC, bC] (by decide) (by decide)

end PT
